import Mathlib

/-!
Shallow embedding of the WorkFlow Pro workforce-management backend.

Namespace `TJ` models `routes/tasks.js` together with the pieces of
`middleware`/`config` it relies on; namespace `P0` models the earlier task
router revision (the one with `checkTaskAccess` and MySQL-style `db.execute`);
namespace `AU` models `routes/auth.js` and the token helpers from
`middleware/auth.js`.

The database is modelled as lists of rows; `executeQuery` calls become list
lookups/filters/maps that mirror each SQL statement.  `bcrypt.compare` and the
JWT signature/expiry checks are parameters of the embedding, since the
libraries performing them are external to the repository.
-/

namespace TJ

/-- A row of the `users` table, restricted to the columns the routers read. -/
structure UserRow where
  id : Nat
  email : String
  password_hash : String
  first_name : String
  last_name : String
  role : String
  status : String
  last_login : Option String
deriving DecidableEq

/-- A row of the `tasks` table in the latest schema revision (soft delete via
the nullable `deleted_at` timestamp). -/
structure TaskRow where
  id : Nat
  title : String
  description : String
  priority : String
  status : String
  assigned_to : Option Nat
  created_by : Nat
  due_date : Option String
  estimated_hours : Option Int
  actual_hours : Option Int
  tags : List String
  board_id : Option Nat
  created_at : String
  updated_at : String
  deleted_at : Option String
deriving DecidableEq

/-- The relational store as seen through `executeQuery`; boards are kept as
bare ids because the task router only checks their existence. -/
structure Db where
  users : List UserRow
  tasks : List TaskRow
  boards : List Nat
deriving DecidableEq

/-- First row of `SELECT ... FROM tasks WHERE id = ? AND deleted_at IS NULL`. -/
def findLiveTask (db : Db) (taskId : Nat) : Option TaskRow :=
  db.tasks.find? (fun t => t.id == taskId && t.deleted_at.isNone)

/-- First row of `SELECT ... FROM tasks WHERE id = ?` (no soft-delete filter,
as used by the re-fetch after `UPDATE`). -/
def findTaskAny (db : Db) (taskId : Nat) : Option TaskRow :=
  db.tasks.find? (fun t => t.id == taskId)

/-- Whether `SELECT id FROM users WHERE id = ? AND status = "active"` returns
a row. -/
def userIsActive (db : Db) (uid : Nat) : Bool :=
  (db.users.find? (fun u => u.id == uid && u.status == "active")).isSome

/-- The helper `canAccessTask(userId, taskId, userRole)` of `routes/tasks.js`:
admins short-circuit to `true`; everyone else is allowed only when a live row
with this id exists and they are its creator or assignee. -/
def canAccessTask (db : Db) (userId taskId : Nat) (userRole : String) : Bool :=
  if userRole == "admin" then true
  else
    match findLiveTask db taskId with
    | none => false
    | some t => t.created_by == userId || t.assigned_to == some userId

/-- Outcome of `GET /api/tasks/:id` in `routes/tasks.js`. -/
inductive GetTaskResult where
  | accessDenied
  | notFound
  | ok (task : TaskRow)
deriving DecidableEq

/-- HTTP status attached to each `GET /api/tasks/:id` outcome: 403 with code
`ACCESS_DENIED`, 404 with code `TASK_NOT_FOUND`, or 200. -/
def GetTaskResult.statusCode : GetTaskResult → Nat
  | .accessDenied => 403
  | .notFound => 404
  | .ok _ => 200

/-- Handler for `GET /api/tasks/:id` in `routes/tasks.js`: access check first
(403 on failure), then the detail query (404 when it returns no row). -/
def getTaskById (db : Db) (taskId userId : Nat) (userRole : String) : GetTaskResult :=
  if !(canAccessTask db userId taskId userRole) then .accessDenied
  else
    match findLiveTask db taskId with
    | none => .notFound
    | some t => .ok t

/-- Body of a `PUT /api/tasks/:id` request after validation; `none` means the
field is absent (`undefined`).  `assignedTo` distinguishes an absent field
from an explicit JSON `null` (which unassigns). -/
structure UpdateReq where
  title : Option String := none
  description : Option String := none
  priority : Option String := none
  status : Option String := none
  assignedTo : Option (Option Nat) := none
  dueDate : Option String := none
  estimatedHours : Option Int := none
  actualHours : Option Int := none
  tags : Option (List String) := none
  boardId : Option Nat := none
deriving DecidableEq

/-- Whether the dynamically built `updates` list is non-empty. -/
def hasUpdates (r : UpdateReq) : Bool :=
  r.title.isSome || r.description.isSome || r.priority.isSome || r.status.isSome ||
  r.assignedTo.isSome || r.dueDate.isSome || r.estimatedHours.isSome ||
  r.actualHours.isSome || r.tags.isSome || r.boardId.isSome

/-- Effect of the dynamically built `UPDATE tasks SET ...` on one row:
exactly the present fields plus `updated_at` are overwritten. -/
def applyUpdate (t : TaskRow) (r : UpdateReq) (now : String) : TaskRow :=
  { t with
    title := r.title.getD t.title
    description := r.description.getD t.description
    priority := r.priority.getD t.priority
    status := r.status.getD t.status
    assigned_to := r.assignedTo.getD t.assigned_to
    due_date := match r.dueDate with
      | some d => some d
      | none => t.due_date
    estimated_hours := match r.estimatedHours with
      | some h => some h
      | none => t.estimated_hours
    actual_hours := match r.actualHours with
      | some h => some h
      | none => t.actual_hours
    tags := r.tags.getD t.tags
    board_id := match r.boardId with
      | some b => some b
      | none => t.board_id
    updated_at := now }

/-- Outcome of `PUT /api/tasks/:id` in `routes/tasks.js`.  `serverError`
models the uncaught `TypeError` when the re-fetch returns no row. -/
inductive UpdateResult where
  | accessDenied
  | invalidAssignee
  | noUpdates
  | serverError
  | ok (task : TaskRow)
deriving DecidableEq

/-- HTTP status of each `PUT /api/tasks/:id` outcome. -/
def UpdateResult.statusCode : UpdateResult → Nat
  | .accessDenied => 403
  | .invalidAssignee => 400
  | .noUpdates => 400
  | .serverError => 500
  | .ok _ => 200

/-- Handler for `PUT /api/tasks/:id` in `routes/tasks.js`.  Note that the only
gate is `canAccessTask`; a non-null `assignedTo` is checked solely for being
an active user, and the `UPDATE ... WHERE id = ?` carries no soft-delete
filter. -/
def updateTask (db : Db) (now : String) (taskId userId : Nat) (userRole : String)
    (r : UpdateReq) : UpdateResult × Db :=
  if !(canAccessTask db userId taskId userRole) then (.accessDenied, db)
  else if (match r.assignedTo with
           | some (some a) => !(userIsActive db a)
           | _ => false) then (.invalidAssignee, db)
  else if !(hasUpdates r) then (.noUpdates, db)
  else
    let db' : Db :=
      { db with tasks := db.tasks.map (fun t =>
          if t.id == taskId then applyUpdate t r now else t) }
    match findTaskAny db' taskId with
    | none => (.serverError, db')
    | some t => (.ok t, db')

/-- Outcome of `DELETE /api/tasks/:id` in `routes/tasks.js`. -/
inductive DeleteResult where
  | accessDenied
  | notFound
  | ok
deriving DecidableEq

/-- HTTP status of each `DELETE /api/tasks/:id` outcome; `ok` is the 200
response `Task deleted (soft) successfully`. -/
def DeleteResult.statusCode : DeleteResult → Nat
  | .accessDenied => 403
  | .notFound => 404
  | .ok => 200

/-- Per-row effect of
`UPDATE tasks SET deleted_at = ? WHERE id = ? AND deleted_at IS NULL`. -/
def softDeleteMark (now : String) (taskId : Nat) (t : TaskRow) : TaskRow :=
  if t.id == taskId && t.deleted_at.isNone then { t with deleted_at := some now }
  else t

/-- Handler for `DELETE /api/tasks/:id` in `routes/tasks.js`: access check,
then `UPDATE tasks SET deleted_at = ? WHERE id = ? AND deleted_at IS NULL`,
then `SELECT id ... WHERE id = ? AND deleted_at IS NOT NULL` to decide
between 200 and 404. -/
def deleteTask (db : Db) (now : String) (taskId userId : Nat) (userRole : String) :
    DeleteResult × Db :=
  if !(canAccessTask db userId taskId userRole) then (.accessDenied, db)
  else
    let db' : Db := { db with tasks := db.tasks.map (softDeleteMark now taskId) }
    if (db'.tasks.find? (fun t => t.id == taskId && !t.deleted_at.isNone)).isSome
    then (.ok, db') else (.notFound, db')

/-- Query string of `GET /api/tasks` after parsing; `none` means absent. -/
structure ListReq where
  page : Option Int := none
  limit : Option Int := none
  status : Option String := none
  priority : Option String := none
  assignedTo : Option Nat := none
  createdBy : Option Nat := none
  boardId : Option Nat := none
  search : Option String := none
  sortBy : Option String := none
  sortOrder : Option String := none
deriving DecidableEq

/-- Destructuring default `page = 1`. -/
def effPage (r : ListReq) : Int := r.page.getD 1

/-- Destructuring default `limit = 20`. -/
def effLimit (r : ListReq) : Int := r.limit.getD 20

/-- Destructuring default `sortBy = 'created_at'`. -/
def effSortBy (r : ListReq) : String := r.sortBy.getD "created_at"

/-- Destructuring default `sortOrder = 'DESC'`. -/
def effSortOrder (r : ListReq) : String := r.sortOrder.getD "DESC"

/-- `s.toUpperCase()` over ASCII. -/
def toUpperCase (s : String) : String := String.mk (s.toList.map Char.toUpper)

/-- The allow-list `validSortColumns` of `routes/tasks.js`. -/
def validSortColumns : List String :=
  ["id", "title", "priority", "status", "created_at", "updated_at", "due_date"]

/-- `safeSortBy`: the requested column when allow-listed, else `created_at`. -/
def safeSortBy (sortBy : String) : String :=
  if validSortColumns.contains sortBy then sortBy else "created_at"

/-- `safeSortOrder`: the upper-cased direction when it is ASC or DESC, else
DESC. -/
def safeSortOrder (sortOrder : String) : String :=
  if toUpperCase sortOrder == "ASC" || toUpperCase sortOrder == "DESC"
  then toUpperCase sortOrder else "DESC"

/-- Lower-cased character list, for SQLite's ASCII case-insensitive `LIKE`. -/
def lowerChars (s : String) : List Char := s.toList.map Char.toLower

/-- Whether the first list is a prefix of the second. -/
def charsPrefixOf : List Char → List Char → Bool
  | [], _ => true
  | _ :: _, [] => false
  | a :: as, b :: bs => a == b && charsPrefixOf as bs

/-- Whether the first list occurs contiguously inside the second. -/
def charsSubOf (p : List Char) : List Char → Bool
  | [] => charsPrefixOf p []
  | c :: cs => charsPrefixOf p (c :: cs) || charsSubOf p cs

/-- The predicate `col LIKE '%' || pat || '%'` (case-insensitive substring;
wildcard metacharacters in `pat` are not modelled, matching the known
limitation noted in the code's search handling). -/
def likeContains (text pat : String) : Bool :=
  charsSubOf (lowerChars pat) (lowerChars text)

/-- Whether one task row satisfies the WHERE clause assembled by
`GET /api/tasks`: the soft-delete filter, the role-based row restriction for
non-admins, and each present query filter. -/
def rowMatches (userId : Nat) (userRole : String) (r : ListReq) (t : TaskRow) : Bool :=
  t.deleted_at.isNone &&
  (userRole == "admin" || t.created_by == userId || t.assigned_to == some userId) &&
  (match r.status with | some s => t.status == s | none => true) &&
  (match r.priority with | some p => t.priority == p | none => true) &&
  (match r.assignedTo with | some a => t.assigned_to == some a | none => true) &&
  (match r.createdBy with | some c => t.created_by == c | none => true) &&
  (match r.boardId with | some b => t.board_id == some b | none => true) &&
  (match r.search with
   | some s => likeContains t.title s || likeContains t.description s
   | none => true)

/-- Ascending comparison for `ORDER BY t.<col>`; text columns compare
lexicographically, numeric ids numerically, and a NULL `due_date` sorts as
the empty string. -/
def taskLe (col : String) (a b : TaskRow) : Bool :=
  if col == "id" then decide (a.id ≤ b.id)
  else if col == "title" then decide (a.title ≤ b.title)
  else if col == "priority" then decide (a.priority ≤ b.priority)
  else if col == "status" then decide (a.status ≤ b.status)
  else if col == "updated_at" then decide (a.updated_at ≤ b.updated_at)
  else if col == "due_date" then decide (a.due_date.getD "" ≤ b.due_date.getD "")
  else decide (a.created_at ≤ b.created_at)

/-- Insertion step of the sort modelling `ORDER BY`. -/
def insertLe (le : TaskRow → TaskRow → Bool) (x : TaskRow) : List TaskRow → List TaskRow
  | [] => [x]
  | y :: ys => if le x y then x :: y :: ys else y :: insertLe le x ys

/-- Insertion sort modelling `ORDER BY` (ascending). -/
def sortTasks (le : TaskRow → TaskRow → Bool) : List TaskRow → List TaskRow
  | [] => []
  | x :: xs => insertLe le x (sortTasks le xs)

/-- `ORDER BY t.<col> <dir>`: the ascending sort, reversed when the direction
is DESC. -/
def orderTasks (col dir : String) (l : List TaskRow) : List TaskRow :=
  let s := sortTasks (taskLe col) l
  if dir == "DESC" then s.reverse else s

/-- The `pagination` object of the `GET /api/tasks` response. -/
structure Pagination where
  page : Int
  limit : Int
  total : Nat
  totalPages : Int
  hasNext : Bool
  hasPrev : Bool
deriving DecidableEq

/-- `Math.ceil(total / limit)` for integer `total ≥ 0` and `limit ≥ 1`; the
`limit ≤ 0` branch is outside the modelled range (JS produces `Infinity`
there). -/
def jsCeilDiv (total : Nat) (limit : Int) : Int :=
  if limit ≤ 0 then 0 else ((total : Int) + limit - 1) / limit

/-- The `GET /api/tasks` response (the handler has no failure path of its
own, so `status` is always 200). -/
structure ListResult where
  status : Nat
  success : Bool
  tasks : List TaskRow
  pagination : Pagination
deriving DecidableEq

/-- Handler for `GET /api/tasks` in `routes/tasks.js`: offset
`(page - 1) * limit` with no bounds check on either parameter, a COUNT query
and a data query sharing the WHERE clause, `LIMIT ? OFFSET ?` modelled by
`take`/`drop` (negative offsets clamp to 0 as in SQLite; limits below 0 are
outside the modelled range). -/
def listTasks (db : Db) (userId : Nat) (userRole : String) (r : ListReq) : ListResult :=
  let page := effPage r
  let limit := effLimit r
  let offset := (page - 1) * limit
  let matching := db.tasks.filter (rowMatches userId userRole r)
  let total := matching.length
  let rows :=
    ((orderTasks (safeSortBy (effSortBy r)) (safeSortOrder (effSortOrder r))
        matching).drop offset.toNat).take limit.toNat
  { status := 200
    success := true
    tasks := rows
    pagination :=
      { page := page
        limit := limit
        total := total
        totalPages := jsCeilDiv total limit
        hasNext := decide (page < jsCeilDiv total limit)
        hasPrev := decide (page > 1) } }

end TJ

namespace P0

/-- A row of the earlier revision's `users` table (activity is the boolean
`is_active` column there). -/
structure UserRow where
  id : Nat
  email : String
  is_active : Bool
deriving DecidableEq

/-- A row of the earlier revision's `tasks` table (projects instead of
boards, nullable `created_by`, no soft-delete column). -/
structure TaskRow where
  id : Nat
  title : String
  description : String
  priority : String
  status : String
  assigned_to : Option Nat
  created_by : Option Nat
  project_id : Option Nat
  due_date : Option String
  estimated_hours : Option Int
  actual_hours : Option Int
  tags : List String
  updated_at : String
deriving DecidableEq

/-- The earlier revision's store; projects are bare ids because only their
existence is checked. -/
structure Db where
  users : List UserRow
  tasks : List TaskRow
  projects : List Nat
deriving DecidableEq

/-- First row of `SELECT ... FROM tasks WHERE t.id = ?`. -/
def findTask (db : Db) (taskId : Nat) : Option TaskRow :=
  db.tasks.find? (fun t => t.id == taskId)

/-- Result shape of `checkTaskAccess`: the `accessible` flag, the task row it
hands back, and the error message.  Both failure branches set `task` to
`null`. -/
structure AccessCheck where
  accessible : Bool
  task : Option TaskRow
  message : Option String
deriving DecidableEq

/-- The helper `checkTaskAccess(taskId, userId, role)` of the earlier task
router: not-found and access-denied both come back with `task: null`, admin
and manager always pass on an existing row, everyone else needs to be the
creator or the assignee. -/
def checkTaskAccess (db : Db) (taskId userId : Nat) (role : String) : AccessCheck :=
  match findTask db taskId with
  | none => { accessible := false, task := none, message := some "Task not found" }
  | some task =>
    if role == "admin" || role == "manager" then
      { accessible := true, task := some task, message := none }
    else if task.created_by == some userId || task.assigned_to == some userId then
      { accessible := true, task := some task, message := none }
    else
      { accessible := false, task := none, message := some "Access denied" }

/-- A JSON response of the earlier router: status, `success` flag, `message`,
and the task payload when present. -/
structure Resp where
  status : Nat
  success : Bool
  message : Option String
  data : Option TaskRow
deriving DecidableEq

/-- Handler for `GET /api/tasks/:id` in the earlier router.  On failure it
runs `res.status(task ? 403 : 404)`; because `checkTaskAccess` returns
`task: null` on denial as well, the modelled status expression is kept
verbatim rather than simplified. -/
def getTaskById (db : Db) (taskId userId : Nat) (role : String) : Resp :=
  let r := checkTaskAccess db taskId userId role
  if !r.accessible then
    { status := if r.task.isSome then 403 else 404, success := false,
      message := r.message, data := none }
  else
    { status := 200, success := true, message := none, data := findTask db taskId }

/-- Body of a `PUT /api/tasks/:id` request in the earlier router; the outer
`Option` is field presence (`undefined`), the inner one a JSON `null`. -/
structure UpdateReq where
  title : Option String := none
  description : Option String := none
  priority : Option String := none
  status : Option String := none
  assigned_to : Option (Option Nat) := none
  project_id : Option (Option Nat) := none
  due_date : Option String := none
  estimated_hours : Option Int := none
  actual_hours : Option Int := none
  tags : Option (List String) := none
deriving DecidableEq

/-- JS truthiness of a numeric body field: `undefined`, `null` and `0` are
falsy; a positive id is returned otherwise. -/
def truthyId : Option (Option Nat) → Option Nat
  | some (some a) => if a == 0 then none else some a
  | _ => none

/-- Whether the earlier router's dynamically built `updates` list is
non-empty (every `!== undefined` field counts, including explicit nulls). -/
def hasUpdates (r : UpdateReq) : Bool :=
  r.title.isSome || r.description.isSome || r.priority.isSome || r.status.isSome ||
  r.assigned_to.isSome || r.project_id.isSome || r.due_date.isSome ||
  r.estimated_hours.isSome || r.actual_hours.isSome || r.tags.isSome

/-- Effect of the earlier router's `UPDATE tasks SET ...` on one row. -/
def applyUpdate (t : TaskRow) (r : UpdateReq) (now : String) : TaskRow :=
  { t with
    title := r.title.getD t.title
    description := r.description.getD t.description
    priority := r.priority.getD t.priority
    status := r.status.getD t.status
    assigned_to := r.assigned_to.getD t.assigned_to
    project_id := r.project_id.getD t.project_id
    due_date := match r.due_date with
      | some d => some d
      | none => t.due_date
    estimated_hours := match r.estimated_hours with
      | some h => some h
      | none => t.estimated_hours
    actual_hours := match r.actual_hours with
      | some h => some h
      | none => t.actual_hours
    tags := r.tags.getD t.tags
    updated_at := now }

/-- Handler for `PUT /api/tasks/:id` in the earlier router: access check,
then the employee reassignment restriction, then assignee/project existence
checks, then the dynamic update. -/
def updateTask (db : Db) (now : String) (taskId userId : Nat) (role : String)
    (r : UpdateReq) : Resp × Db :=
  let ac := checkTaskAccess db taskId userId role
  if ac.accessible then
    match ac.task with
    | some task =>
      if role == "employee" &&
         (match truthyId r.assigned_to with
          | some a => !(some a == task.assigned_to) && !(a == userId)
          | none => false) then
        ({ status := 403, success := false,
           message := some "Employees cannot reassign tasks to other users",
           data := none }, db)
      else if (match truthyId r.assigned_to with
               | some a => !(some a == task.assigned_to) &&
                   !((db.users.find? (fun (u : UserRow) => u.id == a && u.is_active)).isSome)
               | none => false) then
        ({ status := 400, success := false,
           message := some "Assigned user not found or inactive", data := none }, db)
      else if (match truthyId r.project_id with
               | some p => !(some p == task.project_id) && !(db.projects.contains p)
               | none => false) then
        ({ status := 400, success := false,
           message := some "Project not found", data := none }, db)
      else if !(hasUpdates r) then
        ({ status := 400, success := false,
           message := some "No valid fields to update", data := none }, db)
      else
        let db' : Db :=
          { db with tasks := db.tasks.map (fun (t : TaskRow) =>
              if t.id == taskId then applyUpdate t r now else t) }
        ({ status := 200, success := true,
           message := some "Task updated successfully",
           data := findTask db' taskId }, db')
    | none =>
      ({ status := 500, success := false, message := none, data := none }, db)
  else
    ({ status := if ac.task.isSome then 403 else 404, success := false,
       message := ac.message, data := none }, db)

end P0

namespace AU

/-- Outcome of `POST /api/auth/login` as far as its response shape goes. -/
inductive LoginResult where
  | invalidCredentials
  | accountInactive
  | ok (userId : Nat)
deriving DecidableEq

/-- HTTP status, `error`/`message` text and `code` of each login outcome (the
success body carries no `code`, rendered here as the empty string). -/
def LoginResult.response : LoginResult → Nat × String × String
  | .invalidCredentials => (401, "Invalid credentials", "INVALID_CREDENTIALS")
  | .accountInactive => (401, "Account is not active", "ACCOUNT_INACTIVE")
  | .ok _ => (200, "Login successful", "")

/-- Handler for `POST /api/auth/login` in `routes/auth.js`; `compare` stands
for `bcrypt.compare(password, hash)`.  Lookup by email, then the
account-status check, then password verification; success stamps
`last_login`. -/
def login (compare : String → String → Bool) (db : TJ.Db) (now : String)
    (email password : String) : LoginResult × TJ.Db :=
  match db.users.find? (fun u => u.email == email) with
  | none => (.invalidCredentials, db)
  | some user =>
    if !(user.status == "active") then (.accountInactive, db)
    else if !(compare password user.password_hash) then (.invalidCredentials, db)
    else
      let db' : TJ.Db :=
        { db with users := db.users.map (fun u =>
            if u.id == user.id then { u with last_login := some now } else u) }
      (.ok user.id, db')

/-- A refresh token as far as `jsonwebtoken` exposes it to this code: the
claims it carries plus whether its signature verifies under
`JWT_REFRESH_SECRET` and whether it is past its expiry. -/
structure RefreshTokenClaims where
  userId : Nat
  typ : String
  sigValid : Bool
  expired : Bool
deriving DecidableEq

/-- Outcome of `POST /api/auth/refresh`. -/
inductive RefreshResult where
  | tokenInvalid
  | tokenExpired
  | userNotFound
  | accountInactive
  | serverError
  | ok (userId : Nat)
deriving DecidableEq

/-- HTTP status of each refresh outcome (the type-mismatch throw inside
`verifyRefreshToken` has the generic name `Error`, so it reaches the 500
branch). -/
def RefreshResult.statusCode : RefreshResult → Nat
  | .tokenInvalid => 401
  | .tokenExpired => 401
  | .userNotFound => 401
  | .accountInactive => 401
  | .serverError => 500
  | .ok _ => 200

/-- Handler for `POST /api/auth/refresh` in `routes/auth.js`:
`verifyRefreshToken` (signature, expiry, token type), then a user lookup and
the account-status check, then fresh tokens.  The handler runs only SELECTs;
no refresh-token table, blacklist or revocation flag exists anywhere in the
repository, so the store passes through unchanged. -/
def refresh (db : TJ.Db) (t : RefreshTokenClaims) : RefreshResult × TJ.Db :=
  if !t.sigValid then (.tokenInvalid, db)
  else if t.expired then (.tokenExpired, db)
  else if !(t.typ == "refresh") then (.serverError, db)
  else
    match db.users.find? (fun u => u.id == t.userId) with
    | none => (.userNotFound, db)
    | some user =>
      if !(user.status == "active") then (.accountInactive, db)
      else (.ok user.id, db)

end AU

/-! ## Concrete stores used by counterexamples and witnesses -/

/-- A live task with id 1, created by user 1, unassigned. -/
def exTask1 : TJ.TaskRow :=
  { id := 1, title := "t", description := "", priority := "medium",
    status := "todo", assigned_to := none, created_by := 1,
    due_date := none, estimated_hours := none, actual_hours := none,
    tags := [], board_id := none, created_at := "2024-01-01",
    updated_at := "2024-01-01", deleted_at := none }

/-- A store holding only `exTask1`. -/
def exDb1 : TJ.Db := { users := [], tasks := [exTask1], boards := [] }

/-- An active employee with id 3, available as a reassignment target. -/
def exUser3 : TJ.UserRow :=
  { id := 3, email := "c@example.com", password_hash := "h3", first_name := "C",
    last_name := "D", role := "employee", status := "active", last_login := none }

/-- A store holding `exTask1` and the active user 3. -/
def exDb2 : TJ.Db := { users := [exUser3], tasks := [exTask1], boards := [] }

/-- The earlier revision's counterpart of `exTask1`. -/
def p0Task1 : P0.TaskRow :=
  { id := 1, title := "t", description := "", priority := "medium",
    status := "pending", assigned_to := none, created_by := some 1,
    project_id := none, due_date := none, estimated_hours := none,
    actual_hours := none, tags := [], updated_at := "2024-01-01" }

/-- The earlier revision's store with `p0Task1` and an active user 3. -/
def p0Db1 : P0.Db :=
  { users := [{ id := 3, email := "c@example.com", is_active := true }],
    tasks := [p0Task1], projects := [] }

/-- Looking a row up by id commutes with an id-preserving per-row update. -/
theorem find?_map_by_id (l : List TJ.TaskRow) (tid : Nat) (f : TJ.TaskRow → TJ.TaskRow)
    (hf : ∀ t, (f t).id = t.id) :
    (l.map (fun t => if t.id == tid then f t else t)).find? (fun t => t.id == tid) =
      (l.find? (fun t => t.id == tid)).map f := by
  induction l with
  | nil => rfl
  | cons x xs ih =>
    by_cases hx : (x.id == tid) = true
    · simp [List.find?, hx, hf x]
    · have hx' : (x.id == tid) = false := by simpa using hx
      simp only [List.map_cons, hx', Bool.false_eq_true, if_false, List.find?]
      exact ih

/-- The re-fetch `SELECT ... WHERE t.id = ?` after the dynamic UPDATE sees
exactly the updated row. -/
theorem findTaskAny_after_map (db : TJ.Db) (tid : Nat) (f : TJ.TaskRow → TJ.TaskRow)
    (hf : ∀ t, (f t).id = t.id) :
    TJ.findTaskAny
      { db with tasks := db.tasks.map (fun t => if t.id == tid then f t else t) } tid =
      (TJ.findTaskAny db tid).map f :=
  find?_map_by_id db.tasks tid f hf

/-! ## C1 -/

/-- C1, counterexample: in `routes/tasks.js` a manager who is neither creator
nor assignee of the (existing, live) task 1 is denied by `canAccessTask`,
although the claim states that the manager role always allows. -/
theorem C1_counterexample :
    (TJ.findLiveTask exDb1 1).isSome = true ∧
    TJ.canAccessTask exDb1 2 1 "manager" = false := by
  constructor <;> rfl

/-- C1 (amended): the two access-control decisions differ.  In
`routes/tasks.js`, `canAccessTask` allows whenever the role is admin (even
for ids with no live row), and for every other role — manager included —
allows iff a live row with this id exists whose creator or assignee is the
actor.  In the earlier router, `checkTaskAccess` grants access iff the row
exists and the role is admin or manager, or the actor is its creator or
assignee. -/
theorem C1_access_decision (db : TJ.Db) (db0 : P0.Db) (uid tid : Nat) (role : String) :
    (TJ.canAccessTask db uid tid role = true ↔
      (role = "admin" ∨ ∃ t, TJ.findLiveTask db tid = some t ∧
        (t.created_by = uid ∨ t.assigned_to = some uid))) ∧
    ((P0.checkTaskAccess db0 tid uid role).accessible = true ↔
      ∃ t, P0.findTask db0 tid = some t ∧
        (role = "admin" ∨ role = "manager" ∨
         t.created_by = some uid ∨ t.assigned_to = some uid)) := by
  constructor
  · unfold TJ.canAccessTask
    by_cases hr : role = "admin"
    · simp [hr]
    · cases h : TJ.findLiveTask db tid with
      | none => simp [h, hr]
      | some t => simp [h, hr]
  · unfold P0.checkTaskAccess
    cases h : P0.findTask db0 tid with
    | none => simp
    | some t =>
      by_cases h1 : role = "admin" ∨ role = "manager"
      · rcases h1 with h1 | h1 <;> simp [h1]
      · push_neg at h1
        by_cases h2 : t.created_by = some uid ∨ t.assigned_to = some uid
        · simp [h1.1, h1.2, h2]
        · push_neg at h2
          simp [h1.1, h1.2, h2.1, h2.2]

/-! ## C2 -/

/-- C2, counterexample: in `routes/tasks.js` the employee with id 1 (the
task's creator, hence allowed by `canAccessTask`) sets `assignedTo` to the
third party 3; the update is not rejected: it answers 200 and stores the
reassignment. -/
theorem C2_counterexample :
    TJ.updateTask exDb2 "2024-01-02" 1 1 "employee" { assignedTo := some (some 3) } =
      (TJ.UpdateResult.ok
        ({ exTask1 with assigned_to := some 3, updated_at := "2024-01-02" }),
       { exDb2 with
          tasks := [{ exTask1 with assigned_to := some 3, updated_at := "2024-01-02" }] }) ∧
    TJ.UpdateResult.statusCode
      (TJ.updateTask exDb2 "2024-01-02" 1 1 "employee"
        { assignedTo := some (some 3) }).1 = 200 ∧
    (TJ.updateTask exDb2 "2024-01-02" 1 1 "employee"
        { assignedTo := some (some 3) }).2 ≠ exDb2 := by
  refine ⟨rfl, rfl, ?_⟩
  decide

/-- C2 (amended): the reassignment restriction exists only in the earlier
router and only compares against the current assignee: there, an employee
request whose truthy `assigned_to` differs from both the current assignee
and the actor is answered 403 with the task unmodified.  In
`routes/tasks.js` no such restriction exists: an employee who passes
`canAccessTask` may set `assignedTo` to any active user, and the update
succeeds with the reassignment stored. -/
theorem C2_reassignment
    (db0 : P0.Db) (db : TJ.Db) (now : String) (tid uid a : Nat)
    (task : P0.TaskRow) (r0 : P0.UpdateReq) (r : TJ.UpdateReq) (t : TJ.TaskRow)
    (hacc0 : P0.checkTaskAccess db0 tid uid "employee" =
      { accessible := true, task := some task, message := none })
    (hreq0 : P0.truthyId r0.assigned_to = some a)
    (hne0 : some a ≠ task.assigned_to) (hneu : a ≠ uid)
    (hacc : TJ.canAccessTask db uid tid "employee" = true)
    (hfind : TJ.findTaskAny db tid = some t)
    (hact : TJ.userIsActive db a = true)
    (hreq : r.assignedTo = some (some a)) :
    P0.updateTask db0 now tid uid "employee" r0 =
      ({ status := 403, success := false,
         message := some "Employees cannot reassign tasks to other users",
         data := none }, db0) ∧
    (TJ.updateTask db now tid uid "employee" r).1 =
      TJ.UpdateResult.ok (TJ.applyUpdate t r now) ∧
    (TJ.applyUpdate t r now).assigned_to = some a := by
  refine ⟨?_, ?_, ?_⟩
  · unfold P0.updateTask
    rw [hacc0]
    simp [hreq0, hne0, hneu]
  · unfold TJ.updateTask
    simp only [hacc, hreq, hact, TJ.hasUpdates, Option.isSome_some, Bool.true_or,
      Bool.or_true, Bool.not_true, Bool.false_eq_true, if_false]
    rw [findTaskAny_after_map db tid (fun t => TJ.applyUpdate t r now) (fun t => rfl),
      hfind]
    rfl
  · simp [TJ.applyUpdate, hreq]

/-- C2, witness for the amended theorem at concrete stores. -/
theorem C2_reassignment_witness :
    P0.updateTask p0Db1 "2024-01-02" 1 1 "employee" { assigned_to := some (some 3) } =
      ({ status := 403, success := false,
         message := some "Employees cannot reassign tasks to other users",
         data := none }, p0Db1) ∧
    (TJ.updateTask exDb2 "2024-01-02" 1 1 "employee"
        { assignedTo := some (some 3) }).1 =
      TJ.UpdateResult.ok
        (TJ.applyUpdate exTask1 { assignedTo := some (some 3) } "2024-01-02") ∧
    (TJ.applyUpdate exTask1 { assignedTo := some (some 3) } "2024-01-02").assigned_to =
      some 3 :=
  C2_reassignment p0Db1 exDb2 "2024-01-02" 1 1 3 p0Task1
    { assigned_to := some (some 3) } { assignedTo := some (some 3) } exTask1
    (by decide) (by decide) (by decide) (by decide) (by decide) (by decide)
    (by decide) rfl

/-! ## C3 -/

/-- A store with no tasks at all. -/
def exDbEmpty : TJ.Db := { users := [], tasks := [], boards := [] }

/-- C3, counterexample: in `routes/tasks.js` an employee asking for the
nonexistent task 1 receives 403 (`ACCESS_DENIED`), not the claimed 404; and
in the earlier router an employee asking for the existing task 1 they may not
see receives 404 (message `Access denied`), not the claimed 403. -/
theorem C3_counterexample :
    TJ.findLiveTask exDbEmpty 1 = none ∧
    TJ.GetTaskResult.statusCode (TJ.getTaskById exDbEmpty 1 7 "employee") = 403 ∧
    (P0.findTask p0Db1 1).isSome = true ∧
    (P0.getTaskById p0Db1 1 7 "employee").status = 404 ∧
    (P0.getTaskById p0Db1 1 7 "employee").message = some "Access denied" := by
  refine ⟨rfl, rfl, rfl, rfl, rfl⟩

/-- C3 (amended): in `routes/tasks.js`, a missing or soft-deleted id yields
404 only when the actor is an admin; any other actor receives 403 both when
the row is missing and when it exists but is not theirs.  In the earlier
router, a missing id yields 404 with message `Task not found`, and an
existing row the actor may not see yields 404 with message `Access denied` —
the 403 branch of `res.status(task ? 403 : 404)` is unreachable because the
denial result carries `task: null`. -/
theorem C3_get_status (db : TJ.Db) (db0 : P0.Db) (tid uid : Nat) (role : String) :
    (TJ.findLiveTask db tid = none → role ≠ "admin" →
      TJ.getTaskById db tid uid role = TJ.GetTaskResult.accessDenied) ∧
    (TJ.findLiveTask db tid = none →
      TJ.getTaskById db tid uid "admin" = TJ.GetTaskResult.notFound) ∧
    (∀ t, TJ.findLiveTask db tid = some t → role ≠ "admin" →
      t.created_by ≠ uid → t.assigned_to ≠ some uid →
      TJ.getTaskById db tid uid role = TJ.GetTaskResult.accessDenied) ∧
    (P0.findTask db0 tid = none →
      P0.getTaskById db0 tid uid role =
        { status := 404, success := false, message := some "Task not found",
          data := none }) ∧
    (∀ t0, P0.findTask db0 tid = some t0 → role ≠ "admin" → role ≠ "manager" →
      t0.created_by ≠ some uid → t0.assigned_to ≠ some uid →
      P0.getTaskById db0 tid uid role =
        { status := 404, success := false, message := some "Access denied",
          data := none }) := by
  refine ⟨?_, ?_, ?_, ?_, ?_⟩
  · intro h hr
    simp [TJ.getTaskById, TJ.canAccessTask, h, hr]
  · intro h
    simp [TJ.getTaskById, TJ.canAccessTask, h]
  · intro t h hr hc ha
    simp [TJ.getTaskById, TJ.canAccessTask, h, hr, hc, ha]
  · intro h
    simp [P0.getTaskById, P0.checkTaskAccess, h]
  · intro t0 h hr hm hc ha
    simp [P0.getTaskById, P0.checkTaskAccess, h, hr, hm, hc, ha]

/-- C3, witness for the amended theorem at concrete stores. -/
theorem C3_get_status_witness :
    TJ.getTaskById exDb1 1 7 "employee" = TJ.GetTaskResult.accessDenied ∧
    P0.getTaskById p0Db1 1 7 "employee" =
      { status := 404, success := false, message := some "Access denied",
        data := none } :=
  ⟨(C3_get_status exDb1 p0Db1 1 7 "employee").2.2.1 exTask1 (by decide) (by decide)
      (by decide) (by decide),
   (C3_get_status exDb1 p0Db1 1 7 "employee").2.2.2.2 p0Task1 (by decide) (by decide)
      (by decide) (by decide) (by decide)⟩

/-! ## C4 -/

/-- A store with one active user, id 1. -/
def exAuthDb : TJ.Db :=
  { users := [{ id := 1, email := "a@example.com", password_hash := "h1",
                first_name := "A", last_name := "B", role := "employee",
                status := "active", last_login := none }],
    tasks := [], boards := [] }

/-- A refresh token for user 1 whose signature and expiry are valid. -/
def exTok : AU.RefreshTokenClaims :=
  { userId := 1, typ := "refresh", sigValid := true, expired := false }

/-- C4, counterexample: after a first successful refresh (which, in the
claim's terms, rotates the token by handing out a new pair), presenting the
same old refresh token again still answers 200 with fresh tokens — not the
claimed 401 — because the handler consults no revocation state. -/
theorem C4_counterexample :
    (AU.refresh exAuthDb exTok).1 = AU.RefreshResult.ok 1 ∧
    (AU.refresh (AU.refresh exAuthDb exTok).2 exTok).1 = AU.RefreshResult.ok 1 ∧
    AU.RefreshResult.statusCode (AU.refresh (AU.refresh exAuthDb exTok).2 exTok).1 = 200 := by
  refine ⟨rfl, rfl, rfl⟩

/-- C4 (amended): the refresh endpoint is stateless.  It never writes to the
store, re-running it on its own output state returns the same result, and it
succeeds exactly when the token's signature verifies, it is unexpired, its
type claim is `refresh`, and its user id resolves to an active user — prior
use or "rotation" plays no role, so a previously-used refresh token keeps
being accepted until it expires. -/
theorem C4_refresh_stateless (db : TJ.Db) (t : AU.RefreshTokenClaims) :
    (AU.refresh db t).2 = db ∧
    AU.refresh (AU.refresh db t).2 t = AU.refresh db t ∧
    ((∃ uid, (AU.refresh db t).1 = AU.RefreshResult.ok uid) ↔
      (t.sigValid = true ∧ t.expired = false ∧ t.typ = "refresh" ∧
       ∃ u, db.users.find? (fun u => u.id == t.userId) = some u ∧
         u.status = "active")) := by
  have hsnd : (AU.refresh db t).2 = db := by
    unfold AU.refresh
    split
    · rfl
    · split
      · rfl
      · split
        · rfl
        · split
          · rfl
          · split <;> rfl
  refine ⟨hsnd, by rw [hsnd], ?_⟩
  unfold AU.refresh
  cases hs : t.sigValid
  · simp
  · cases he : t.expired
    · by_cases ht : t.typ = "refresh"
      · simp only [ht, Bool.not_false, Bool.not_true, Bool.false_eq_true, if_false]
        cases h : db.users.find? (fun u => u.id == t.userId) with
        | none => simp
        | some u =>
          by_cases ha : u.status = "active"
          · simp [ha]
          · simp [ha]
      · simp [ht]
    · simp

/-! ## C5 -/

/-- A list request asking for 101 rows per page. -/
def exReq101 : TJ.ListReq := { limit := some 101 }

/-- A list request asking for page 0. -/
def exReq0 : TJ.ListReq := { page := some 0 }

/-- C5, counterexample: `GET /api/tasks` never clamps its parameters: with
`?limit=101` the effective limit is 101, above the claimed bound of 100, and
with `?page=0` the effective page is 0, below the claimed bound of 1. -/
theorem C5_counterexample :
    TJ.effLimit exReq101 = 101 ∧
    ¬(1 ≤ TJ.effLimit exReq101 ∧ TJ.effLimit exReq101 ≤ 100) ∧
    (TJ.listTasks exDb1 1 "admin" exReq101).pagination.limit = 101 ∧
    TJ.effPage exReq0 = 0 ∧
    ¬(1 ≤ TJ.effPage exReq0) := by
  exact ⟨rfl, by decide, rfl, rfl, by decide⟩

/-- C5 (amended): no bounds are enforced on page or limit — the handler uses
the supplied values verbatim, defaulting to page 1 and limit 20 — while the
offset part of the claim does hold: the rows returned are the sorted filtered
rows with exactly (page − 1) × limit dropped and limit taken. -/
theorem C5_pagination_params (db : TJ.Db) (uid : Nat) (role : String) (r : TJ.ListReq) :
    (TJ.listTasks db uid role r).pagination.page = TJ.effPage r ∧
    (TJ.listTasks db uid role r).pagination.limit = TJ.effLimit r ∧
    (TJ.listTasks db uid role r).tasks =
      ((TJ.orderTasks (TJ.safeSortBy (TJ.effSortBy r)) (TJ.safeSortOrder (TJ.effSortOrder r))
          (db.tasks.filter (TJ.rowMatches uid role r))).drop
            ((TJ.effPage r - 1) * TJ.effLimit r).toNat).take (TJ.effLimit r).toNat :=
  ⟨rfl, rfl, rfl⟩

/-! ## C6 -/

/-- Inserting one row grows the sorted list by exactly one. -/
theorem length_insertLe (le : TJ.TaskRow → TJ.TaskRow → Bool) (x : TJ.TaskRow)
    (l : List TJ.TaskRow) : (TJ.insertLe le x l).length = l.length + 1 := by
  induction l with
  | nil => rfl
  | cons y ys ih =>
    unfold TJ.insertLe
    split
    · simp
    · simp [ih]

/-- The `ORDER BY` sort keeps the number of rows. -/
theorem length_sortTasks (le : TJ.TaskRow → TJ.TaskRow → Bool)
    (l : List TJ.TaskRow) : (TJ.sortTasks le l).length = l.length := by
  induction l with
  | nil => rfl
  | cons x xs ih =>
    unfold TJ.sortTasks
    rw [length_insertLe, ih, List.length_cons]

/-- Ordering (in either direction) keeps the number of rows. -/
theorem length_orderTasks (col dir : String) (l : List TJ.TaskRow) :
    (TJ.orderTasks col dir l).length = l.length := by
  unfold TJ.orderTasks
  dsimp only
  split
  · rw [List.length_reverse, length_sortTasks]
  · rw [length_sortTasks]

/-- `Math.ceil(total / limit)` is the least `k ≥ 0` with `total ≤ k * limit`
when the limit is positive. -/
theorem jsCeilDiv_spec (total : Nat) (L : Int) (hL : 1 ≤ L) :
    0 ≤ TJ.jsCeilDiv total L ∧
    (total : Int) ≤ TJ.jsCeilDiv total L * L ∧
    (∀ k : Int, 0 ≤ k → (total : Int) ≤ k * L → TJ.jsCeilDiv total L ≤ k) := by
  have hL0 : (0 : Int) < L := by omega
  have htot : (0 : Int) ≤ (total : Int) := Int.natCast_nonneg total
  unfold TJ.jsCeilDiv
  rw [if_neg (by omega : ¬ L ≤ 0)]
  have hdm := Int.ediv_add_emod ((total : Int) + L - 1) L
  have hmlt := Int.emod_lt_of_pos ((total : Int) + L - 1) hL0
  have hm0 := Int.emod_nonneg ((total : Int) + L - 1) (by omega : L ≠ 0)
  refine ⟨Int.ediv_nonneg (by omega) (by omega), ?_, ?_⟩
  · nlinarith [hdm, hmlt]
  · intro k hk hkL
    by_contra hlt
    push_neg at hlt
    have h1 : k + 1 ≤ ((total : Int) + L - 1) / L := by omega
    have h2 : (k + 1) * L ≤ (total : Int) + L - 1 :=
      (Int.le_ediv_iff_mul_le hL0).mp h1
    nlinarith [h2, hkL]

/-- C6: for a list request carrying an explicit limit L ≥ 1 matching T rows,
the reported totalPages is exactly the ceiling of T / L (the least k ≥ 0 with
T ≤ k·L), and a request for any page beyond totalPages still answers 200 with
an empty row set. -/
theorem C6_pagination (db : TJ.Db) (uid : Nat) (role : String) (r : TJ.ListReq)
    (L P : Int) (hLr : r.limit = some L) (hL : 1 ≤ L) (hPr : r.page = some P)
    (hgt : (TJ.listTasks db uid role r).pagination.totalPages < P) :
    ((TJ.listTasks db uid role r).pagination.total : Int) ≤
      (TJ.listTasks db uid role r).pagination.totalPages * L ∧
    (∀ k : Int, 0 ≤ k →
      ((TJ.listTasks db uid role r).pagination.total : Int) ≤ k * L →
      (TJ.listTasks db uid role r).pagination.totalPages ≤ k) ∧
    (TJ.listTasks db uid role r).status = 200 ∧
    (TJ.listTasks db uid role r).tasks = [] := by
  have heffL : TJ.effLimit r = L := by simp [TJ.effLimit, hLr]
  have heffP : TJ.effPage r = P := by simp [TJ.effPage, hPr]
  have htot : (TJ.listTasks db uid role r).pagination.total =
      (db.tasks.filter (TJ.rowMatches uid role r)).length := rfl
  have htp : (TJ.listTasks db uid role r).pagination.totalPages =
      TJ.jsCeilDiv ((db.tasks.filter (TJ.rowMatches uid role r)).length)
        (TJ.effLimit r) := rfl
  have htasks : (TJ.listTasks db uid role r).tasks =
      ((TJ.orderTasks (TJ.safeSortBy (TJ.effSortBy r))
          (TJ.safeSortOrder (TJ.effSortOrder r))
          (db.tasks.filter (TJ.rowMatches uid role r))).drop
            ((TJ.effPage r - 1) * TJ.effLimit r).toNat).take (TJ.effLimit r).toNat := rfl
  obtain ⟨h0, hle, hmin⟩ :=
    jsCeilDiv_spec ((db.tasks.filter (TJ.rowMatches uid role r)).length) L hL
  rw [htp, heffL] at hgt
  refine ⟨?_, ?_, rfl, ?_⟩
  · rw [htot, htp, heffL]
    exact hle
  · intro k hk hkL
    rw [htot] at hkL
    rw [htp, heffL]
    exact hmin k hk hkL
  · rw [htasks, heffL, heffP]
    have hoff : ((db.tasks.filter (TJ.rowMatches uid role r)).length : Int) ≤
        (P - 1) * L := by
      have hstep : TJ.jsCeilDiv ((db.tasks.filter (TJ.rowMatches uid role r)).length) L
          ≤ P - 1 := by omega
      calc ((db.tasks.filter (TJ.rowMatches uid role r)).length : Int)
          ≤ TJ.jsCeilDiv ((db.tasks.filter (TJ.rowMatches uid role r)).length) L * L :=
            hle
        _ ≤ (P - 1) * L := by nlinarith [hstep, hL]
    have hlen : ((TJ.orderTasks (TJ.safeSortBy (TJ.effSortBy r))
        (TJ.safeSortOrder (TJ.effSortOrder r))
        (db.tasks.filter (TJ.rowMatches uid role r))).length) ≤ ((P - 1) * L).toNat := by
      rw [length_orderTasks]
      have hnn : 0 ≤ (P - 1) * L := le_trans (Int.natCast_nonneg _) hoff
      exact (Int.le_toNat hnn).mpr hoff
    rw [List.drop_eq_nil_of_le hlen, List.take_nil]

/-- A store with three live tasks (ids 1, 2, 3) all created by user 1. -/
def exDb3 : TJ.Db :=
  { users := [], tasks := [exTask1, { exTask1 with id := 2 }, { exTask1 with id := 3 }],
    boards := [] }

/-- A list request for page 5 with limit 2. -/
def exReqP5 : TJ.ListReq := { page := some 5, limit := some 2 }

/-- C6, witness: three matching rows with limit 2 give totalPages 2, and page
5 answers 200 with no rows. -/
theorem C6_pagination_witness :
    ((TJ.listTasks exDb3 1 "admin" exReqP5).pagination.total : Int) ≤
      (TJ.listTasks exDb3 1 "admin" exReqP5).pagination.totalPages * 2 ∧
    (∀ k : Int, 0 ≤ k →
      ((TJ.listTasks exDb3 1 "admin" exReqP5).pagination.total : Int) ≤ k * 2 →
      (TJ.listTasks exDb3 1 "admin" exReqP5).pagination.totalPages ≤ k) ∧
    (TJ.listTasks exDb3 1 "admin" exReqP5).status = 200 ∧
    (TJ.listTasks exDb3 1 "admin" exReqP5).tasks = [] :=
  C6_pagination exDb3 1 "admin" exReqP5 2 5 rfl (by decide) rfl (by decide)

/-! ## C7 -/

/-- C7: a `sortBy` outside the allow-list degrades to `created_at` — the
whole response is the one the default sort produces — the request still
answers 200, and when `sortOrder` is also unrecognized the response is the
one produced by `created_at` descending. -/
theorem C7_sort_fallback (db : TJ.Db) (uid : Nat) (role : String) (r : TJ.ListReq)
    (s : String) (hs : r.sortBy = some s)
    (hns : TJ.validSortColumns.contains s = false) :
    TJ.safeSortBy (TJ.effSortBy r) = "created_at" ∧
    (TJ.listTasks db uid role r).status = 200 ∧
    TJ.listTasks db uid role r =
      TJ.listTasks db uid role { r with sortBy := some "created_at" } ∧
    (∀ so, r.sortOrder = some so →
      (TJ.toUpperCase so == "ASC" || TJ.toUpperCase so == "DESC") = false →
      TJ.listTasks db uid role r =
        TJ.listTasks db uid role
          { r with sortBy := some "created_at", sortOrder := some "DESC" }) := by
  have h1 : TJ.safeSortBy (TJ.effSortBy r) = "created_at" := by
    have he : TJ.effSortBy r = s := by simp [TJ.effSortBy, hs]
    rw [he]
    unfold TJ.safeSortBy
    rw [if_neg (by rw [hns]; exact Bool.false_ne_true)]
  refine ⟨h1, rfl, ?_, ?_⟩
  · unfold TJ.listTasks
    rw [h1]
    rfl
  · intro so hso hbad
    have h2 : TJ.safeSortOrder (TJ.effSortOrder r) = "DESC" := by
      simp [TJ.effSortOrder, hso, TJ.safeSortOrder, hbad]
    unfold TJ.listTasks
    rw [h1, h2]
    rfl

/-- A list request with an unrecognized sort column and direction. -/
def exReqSort : TJ.ListReq := { sortBy := some "bogus", sortOrder := some "sideways" }

/-- C7, witness at a concrete store and request. -/
theorem C7_sort_fallback_witness :
    TJ.safeSortBy (TJ.effSortBy exReqSort) = "created_at" ∧
    (TJ.listTasks exDb1 1 "admin" exReqSort).status = 200 ∧
    TJ.listTasks exDb1 1 "admin" exReqSort =
      TJ.listTasks exDb1 1 "admin" { exReqSort with sortBy := some "created_at" } ∧
    (∀ so, exReqSort.sortOrder = some so →
      (TJ.toUpperCase so == "ASC" || TJ.toUpperCase so == "DESC") = false →
      TJ.listTasks exDb1 1 "admin" exReqSort =
        TJ.listTasks exDb1 1 "admin"
          { exReqSort with sortBy := some "created_at", sortOrder := some "DESC" }) :=
  C7_sort_fallback exDb1 1 "admin" exReqSort "bogus" rfl (by decide)

/-! ## C8 -/

/-- C8: a login with an email absent from the users table and a login with an
existing active user's email but a failing password comparison both yield 401
with the identical body `Invalid credentials` / `INVALID_CREDENTIALS`. -/
theorem C8_login_no_enumeration
    (compare : String → String → Bool) (db : TJ.Db) (now : String)
    (e1 pw1 e2 pw2 : String) (u : TJ.UserRow)
    (h1 : db.users.find? (fun v => v.email == e1) = none)
    (h2 : db.users.find? (fun v => v.email == e2) = some u)
    (hact : u.status = "active")
    (hpw : compare pw2 u.password_hash = false) :
    (AU.login compare db now e1 pw1).1 = AU.LoginResult.invalidCredentials ∧
    (AU.login compare db now e2 pw2).1 = AU.LoginResult.invalidCredentials ∧
    AU.LoginResult.response (AU.login compare db now e1 pw1).1 =
      AU.LoginResult.response (AU.login compare db now e2 pw2).1 ∧
    (AU.LoginResult.response (AU.login compare db now e1 pw1).1).1 = 401 := by
  have ha : (AU.login compare db now e1 pw1).1 = AU.LoginResult.invalidCredentials := by
    unfold AU.login
    rw [h1]
  have hb : (AU.login compare db now e2 pw2).1 = AU.LoginResult.invalidCredentials := by
    unfold AU.login
    rw [h2]
    simp [hact, hpw]
  exact ⟨ha, hb, by rw [ha, hb], by rw [ha]; rfl⟩

/-- C8, witness: the store `exAuthDb` with equality as the password check. -/
theorem C8_login_no_enumeration_witness :
    (AU.login (fun p h => p == h) exAuthDb "2024-01-02" "ghost@example.com" "x").1 =
      AU.LoginResult.invalidCredentials ∧
    (AU.login (fun p h => p == h) exAuthDb "2024-01-02" "a@example.com" "wrong").1 =
      AU.LoginResult.invalidCredentials ∧
    AU.LoginResult.response
        (AU.login (fun p h => p == h) exAuthDb "2024-01-02" "ghost@example.com" "x").1 =
      AU.LoginResult.response
        (AU.login (fun p h => p == h) exAuthDb "2024-01-02" "a@example.com" "wrong").1 ∧
    (AU.LoginResult.response
        (AU.login (fun p h => p == h) exAuthDb "2024-01-02" "ghost@example.com" "x").1).1 =
      401 :=
  C8_login_no_enumeration (fun p h => p == h) exAuthDb "2024-01-02"
    "ghost@example.com" "x" "a@example.com" "wrong"
    { id := 1, email := "a@example.com", password_hash := "h1", first_name := "A",
      last_name := "B", role := "employee", status := "active", last_login := none }
    (by decide) (by decide) (by decide) (by decide)

/-! ## C9 -/

/-- C9: the account-status check comes before password verification: for a
user whose status is not `active`, login answers 401 with the distinct body
`Account is not active` / `ACCOUNT_INACTIVE` no matter what the password
comparison would say, which differs from the `INVALID_CREDENTIALS` body. -/
theorem C9_inactive_first
    (compare : String → String → Bool) (db : TJ.Db) (now : String)
    (e pw : String) (u : TJ.UserRow)
    (h : db.users.find? (fun v => v.email == e) = some u)
    (hst : u.status ≠ "active") :
    (AU.login compare db now e pw).1 = AU.LoginResult.accountInactive ∧
    AU.LoginResult.response (AU.login compare db now e pw).1 =
      (401, "Account is not active", "ACCOUNT_INACTIVE") ∧
    AU.LoginResult.response (AU.login compare db now e pw).1 ≠
      AU.LoginResult.response AU.LoginResult.invalidCredentials := by
  have ha : (AU.login compare db now e pw).1 = AU.LoginResult.accountInactive := by
    unfold AU.login
    rw [h]
    simp [hst]
  refine ⟨ha, by rw [ha]; rfl, by rw [ha]; decide⟩

/-- A store whose only user (id 2) is suspended. -/
def exInactiveDb : TJ.Db :=
  { users := [{ id := 2, email := "i@example.com", password_hash := "h2",
                first_name := "I", last_name := "J", role := "employee",
                status := "suspended", last_login := none }],
    tasks := [], boards := [] }

/-- C9, witness: even with a password check that always succeeds, login on
the suspended account answers `ACCOUNT_INACTIVE`. -/
theorem C9_inactive_first_witness :
    (AU.login (fun _ _ => true) exInactiveDb "2024-01-02" "i@example.com" "pw").1 =
      AU.LoginResult.accountInactive ∧
    AU.LoginResult.response
        (AU.login (fun _ _ => true) exInactiveDb "2024-01-02" "i@example.com" "pw").1 =
      (401, "Account is not active", "ACCOUNT_INACTIVE") ∧
    AU.LoginResult.response
        (AU.login (fun _ _ => true) exInactiveDb "2024-01-02" "i@example.com" "pw").1 ≠
      AU.LoginResult.response AU.LoginResult.invalidCredentials :=
  C9_inactive_first (fun _ _ => true) exInactiveDb "2024-01-02" "i@example.com" "pw"
    { id := 2, email := "i@example.com", password_hash := "h2", first_name := "I",
      last_name := "J", role := "employee", status := "suspended", last_login := none }
    (by decide) (by decide)

/-! ## C10 -/

/-- Marking a row soft-deleted a second time changes nothing: the WHERE
clause `deleted_at IS NULL` no longer matches it. -/
theorem softDeleteMark_fix (now1 now2 : String) (tid : Nat) (t : TJ.TaskRow) :
    TJ.softDeleteMark now2 tid (TJ.softDeleteMark now1 tid t) =
      TJ.softDeleteMark now1 tid t := by
  unfold TJ.softDeleteMark
  by_cases hc : (t.id == tid && t.deleted_at.isNone) = true
  · rw [if_pos hc]
    simp
  · rw [if_neg hc, if_neg hc]

/-- For an admin actor the delete handler reduces to: mark, then report 200
or 404 according to whether a deleted row with this id is present. -/
theorem deleteTask_admin_run (db : TJ.Db) (now : String) (tid uid : Nat) :
    TJ.deleteTask db now tid uid "admin" =
      (if ((db.tasks.map (TJ.softDeleteMark now tid)).find?
            (fun t => t.id == tid && !t.deleted_at.isNone)).isSome
       then TJ.DeleteResult.ok else TJ.DeleteResult.notFound,
       { db with tasks := db.tasks.map (TJ.softDeleteMark now tid) }) := by
  unfold TJ.deleteTask
  have hacc : TJ.canAccessTask db uid tid "admin" = true := by
    simp [TJ.canAccessTask]
  rw [hacc]
  simp only [Bool.not_true, Bool.false_eq_true, if_false]
  split <;> rfl

/-- C10: for an admin actor, once a delete of task `tid` has answered 200,
repeating the delete answers the identical success response and leaves the
store — including the `deleted_at` stamp written by the first call —
entirely unchanged. -/
theorem C10_delete_idempotent (db : TJ.Db) (now1 now2 : String) (tid uid : Nat)
    (h1 : (TJ.deleteTask db now1 tid uid "admin").1 = TJ.DeleteResult.ok) :
    TJ.deleteTask (TJ.deleteTask db now1 tid uid "admin").2 now2 tid uid "admin" =
      (TJ.DeleteResult.ok, (TJ.deleteTask db now1 tid uid "admin").2) := by
  have hmm : (db.tasks.map (TJ.softDeleteMark now1 tid)).map (TJ.softDeleteMark now2 tid) =
      db.tasks.map (TJ.softDeleteMark now1 tid) := by
    rw [List.map_map]
    have hcomp : (TJ.softDeleteMark now2 tid ∘ TJ.softDeleteMark now1 tid) =
        TJ.softDeleteMark now1 tid :=
      funext (softDeleteMark_fix now1 now2 tid)
    rw [hcomp]
  rw [deleteTask_admin_run db now1 tid uid] at h1 ⊢
  dsimp only at h1 ⊢
  by_cases hc : (((db.tasks.map (TJ.softDeleteMark now1 tid)).find?
      (fun t => t.id == tid && !t.deleted_at.isNone)).isSome) = true
  · rw [deleteTask_admin_run _ now2 tid uid]
    dsimp only
    rw [hmm, if_pos hc]
  · rw [if_neg hc] at h1
    exact absurd h1 (by simp)

/-- C10, witness: the first admin delete of the live task 1 answers 200;
the repeated delete answers the same 200 response and leaves the store as
the first delete left it. -/
theorem C10_delete_idempotent_witness :
    TJ.deleteTask (TJ.deleteTask exDb1 "2024-02-01" 1 9 "admin").2 "2024-03-01" 1 9
        "admin" =
      (TJ.DeleteResult.ok, (TJ.deleteTask exDb1 "2024-02-01" 1 9 "admin").2) :=
  C10_delete_idempotent exDb1 "2024-02-01" "2024-03-01" 1 9 (by decide)
